import Mathlib

/-!
Shallow embedding of `src/music_backend.cpp` (BARKPlayer): the `Decoder`
decode loop and the `MusicBackend` transport controller (play_file, pause,
stop, get_position, read_metadata, bus_callback_func).

External effects (GStreamer pipeline construction, the pipeline clock,
pthread creation, mp4read/FAAD results, pipe writes) are modelled as
explicit environment records supplied to each operation; machine integers
(`gint64`, `GstClockTime`) are modelled as `Int` / `Nat` with exact
arithmetic.  Stateful methods become functions `State → Env → State × List Ev`
where the event list records the externally visible calls in order.
-/

namespace BARKPlayer

/-- `GST_SECOND`: nanoseconds per second, the GStreamer time unit. -/
def GST_SECOND : Int := 1000000000

/-- Externally visible calls made by the backend, in order of occurrence. -/
inductive Ev
  /-- `gst_element_set_state(pipeline, GST_STATE_NULL)`: deactivate the
  rendering pipeline (closes the channel's read side). -/
  | setPipelineNull
  /-- `pthread_join` inside `Decoder::stop()`: join the decoder thread. -/
  | decoderJoin
  /-- `g_source_remove(bus_watch_id)` inside `cleanup_pipeline`. -/
  | removeBusWatch
  /-- `gst_object_unref(pipeline)` inside `cleanup_pipeline`. -/
  | unrefPipeline
  /-- `gst_element_set_state(pipeline, GST_STATE_PLAYING)`. -/
  | setPipelinePlaying
  /-- invocation of the registered end-of-stream callback. -/
  | eosCallback
  deriving DecidableEq, Repr

/-- The pipeline-clock readings available at one instant:
`gst_element_get_clock` (may return NULL), `gst_clock_get_time` and
`gst_element_get_base_time` (valid iff not `GST_CLOCK_TIME_NONE`). -/
structure ClockEnv where
  clockAvailable : Bool
  currentTime : Nat
  baseTime : Nat
  baseTimeValid : Bool
  deriving DecidableEq, Repr

/-- The mutable fields of `MusicBackend` (plus the owned `Decoder`'s
`running` flag) that the claims observe. `pipeline` is whether the
pipeline pointer is non-NULL. -/
structure BackendState where
  is_playing : Bool
  is_paused : Bool
  pipeline : Bool
  bus_watch_id : Nat
  stopping : Bool
  last_position : Int
  current_samplerate : Int
  total_duration : Int
  current_filepath_str : String
  decoder_running : Bool
  deriving DecidableEq, Repr

/-- The freshly constructed `MusicBackend` (constructor, lines 199-208). -/
def initialState : BackendState :=
  { is_playing := false, is_paused := false, pipeline := false,
    bus_watch_id := 0, stopping := false, last_position := 0,
    current_samplerate := 44100, total_duration := 0,
    current_filepath_str := "", decoder_running := false }

/-- A representative mid-playback state: pipeline up, bus watch
registered, decoder thread running, playing and not paused. -/
def livePlayingState : BackendState :=
  { is_playing := true, is_paused := false, pipeline := true,
    bus_watch_id := 3, stopping := false, last_position := 100,
    current_samplerate := 44100, total_duration := 0,
    current_filepath_str := "a.m4a", decoder_running := true }

/-- `MusicBackend::get_position` (lines 240-258): returns `last_position`
when paused; when a pipeline exists and we are playing, returns
`(current_time - base_time) + last_position` provided a clock is
obtainable, the base time is valid and `current_time > base_time`;
otherwise returns `last_position`. -/
def get_position (st : BackendState) (env : ClockEnv) : Int :=
  if st.is_paused then st.last_position
  else if st.pipeline && st.is_playing then
    if env.clockAvailable then
      if env.baseTimeValid && decide (env.baseTime < env.currentTime) then
        ((env.currentTime - env.baseTime : Nat) : Int) + st.last_position
      else st.last_position
    else st.last_position
  else st.last_position

/-- `MusicBackend::pause` (lines 360-387): no-op without a pipeline or
when not playing.  When paused, resumes: subtracts the running-time delta
from `last_position` (when clock obtainable, base time valid and
`current_time > base_time`), sets the pipeline playing and clears
`is_paused`.  When not paused, stores `get_position()` into
`last_position`, sets the pipeline paused and sets `is_paused`. -/
def pause (st : BackendState) (env : ClockEnv) : BackendState :=
  if !st.pipeline || !st.is_playing then st
  else if st.is_paused then
    let st1 :=
      if env.clockAvailable then
        if env.baseTimeValid && decide (env.baseTime < env.currentTime) then
          { st with last_position :=
              st.last_position - ((env.currentTime - env.baseTime : Nat) : Int) }
        else st
      else st
    { st1 with is_paused := false }
  else
    { st with last_position := get_position st env, is_paused := true }

/-- `MusicBackend::cleanup_pipeline` (lines 412-422): removes the bus
watch when registered, then deactivates and unrefs the pipeline when
present, clearing both fields. -/
def cleanup_pipeline (st : BackendState) : BackendState × List Ev :=
  let evs1 := if st.bus_watch_id > 0 then [Ev.removeBusWatch] else []
  let evs2 := if st.pipeline then [Ev.setPipelineNull, Ev.unrefPipeline] else []
  ({ st with bus_watch_id := 0, pipeline := false }, evs1 ++ evs2)

/-- `MusicBackend::stop` (lines 389-410): rejected while `stopping`;
otherwise deactivates the pipeline (when present), then performs
`Decoder::stop` (which joins the thread iff the decoder is running),
then `cleanup_pipeline`, and finally clears `stopping`, `is_playing`
and `is_paused`. -/
def stop (st : BackendState) : BackendState × List Ev :=
  if st.stopping then (st, [])
  else
    let evs1 := if st.pipeline then [Ev.setPipelineNull] else []
    let evs2 := if st.decoder_running then [Ev.decoderJoin] else []
    let st1 := { st with decoder_running := false }
    let p := cleanup_pipeline st1
    ({ p.1 with stopping := false, is_playing := false, is_paused := false },
     evs1 ++ evs2 ++ p.2)

/-- The external outcomes a `play_file` call can encounter:
whether `gst_parse_launch` returns a non-NULL pipeline, the watch id
returned by `gst_bus_add_watch`, and whether `pthread_create` inside
`Decoder::start` succeeds. -/
structure PlayEnv where
  pipelineCreated : Bool
  newBusWatchId : Nat
  decoderStartOk : Bool
  deriving DecidableEq, Repr

/-- `MusicBackend::play_file` (lines 312-358): rejected while `stopping`;
stops any session in progress; records the file path, sets
`is_playing`, clears `is_paused` and sets
`last_position := start_time * GST_SECOND`; builds the pipeline (on
failure clears `is_playing` and returns); registers the bus watch;
starts the decoder — `Decoder::start` (lines 43-59) first stops a running
decoder (joining its thread) and reports `pthread_create` failure, in
which case `play_file` runs `cleanup_pipeline` and returns; finally sets
the pipeline playing. -/
def play_file (st : BackendState) (filepath : String) (start_time : Int)
    (env : PlayEnv) : BackendState × List Ev :=
  if st.stopping then (st, [])
  else
    let p0 := if st.is_playing || st.is_paused then stop st else (st, [])
    let st1 := { p0.1 with
      current_filepath_str := filepath,
      is_playing := true, is_paused := false,
      last_position := start_time * GST_SECOND }
    if !env.pipelineCreated then
      ({ st1 with pipeline := false, is_playing := false }, p0.2)
    else
      let st2 := { st1 with pipeline := true, bus_watch_id := env.newBusWatchId }
      let joinEvs := if st2.decoder_running then [Ev.decoderJoin] else []
      if !env.decoderStartOk then
        let cl := cleanup_pipeline { st2 with decoder_running := false }
        (cl.1, p0.2 ++ joinEvs ++ cl.2)
      else
        ({ st2 with decoder_running := true },
         p0.2 ++ joinEvs ++ [Ev.setPipelinePlaying])

/-- `MusicBackend::bus_callback_func`, `GST_MESSAGE_EOS` case (lines
428-442): calls `stop()`, then invokes the end-of-stream callback when
one is registered (`on_eos_callback != NULL`). -/
def bus_eos (st : BackendState) (callbackRegistered : Bool) :
    BackendState × List Ev :=
  let p := stop st
  (p.1, p.2 ++ (if callbackRegistered then [Ev.eosCallback] else []))

/-- Duration assignment in `MusicBackend::read_metadata` (lines 297-301),
executed when `mp4read_open` succeeded:
`total_duration := samples * GST_SECOND / samplerate` when
`mp4config.samplerate > 0 && mp4config.samples > 0`, else `0`.  When the
open fails, `total_duration` is left unchanged.  `samples` and
`samplerate` are the container-reported total sample count and sample
rate. -/
def read_metadata_duration (openOk : Bool) (samples samplerate : Nat)
    (prev : Int) : Int :=
  if openOk then
    if samplerate > 0 && samples > 0 then
      (samples : Int) * GST_SECOND / (samplerate : Nat)
    else 0
  else prev

/-- Outcome of the seek section of `Decoder::decode_loop`:
either a seek to a frame index is attempted, or decoding proceeds from
the start of the stream without an in-range seek. -/
inductive SeekAction
  | seekTo (frame : Nat)
  | fromStart
  deriving DecidableEq, Repr

/-- The seek section of `Decoder::decode_loop` (lines 125-143), as a
function of `start_time` (seconds), the FAAD-reported `samplerate`, and
the demuxer totals `mp4config.samples` (total sample count) and
`mp4config.frame.nsamples` (total frame count).  When `start_time > 0`:
`samples_per_frame` is `samples / nsamples` when both are positive, else
`1024`; the target frame is `start_time * samplerate / samples_per_frame`
and the seek is attempted only when it is `< nsamples`.  When
`start_time = 0`, the code seeks to frame 0 (the start).  The C code
computes the quotient in `double` and truncates to `unsigned long`;
this is modelled as exact natural division, with which it agrees
whenever the product is exactly representable. -/
def decode_seek (start_time : Nat) (samplerate samples nsamples : Nat) :
    SeekAction :=
  if start_time > 0 then
    let samples_per_frame :=
      if nsamples > 0 && samples > 0 then samples / nsamples else 1024
    let target_frame := start_time * samplerate / samples_per_frame
    if target_frame < nsamples then SeekAction.seekTo target_frame
    else SeekAction.fromStart
  else SeekAction.seekTo 0

/-- Restatement of the claim's formula for the seek target, written from
the spec's words: `startTimeSeconds * sampleRate / samplesPerFrame`,
where `samplesPerFrame` is `totalSampleCount / totalFrameCount` when
both are positive and `1024` otherwise. -/
def spec_target_frame (startTimeSeconds sampleRate totalSampleCount
    totalFrameCount : Nat) : Nat :=
  let samplesPerFrame :=
    if totalSampleCount > 0 && totalFrameCount > 0 then
      totalSampleCount / totalFrameCount
    else 1024
  startTimeSeconds * sampleRate / samplesPerFrame

/-- Result of one `write(fd, ...)` in the decode loop: success (any
non-negative byte count), failure with `errno == EPIPE`, or failure with
any other errno. -/
inductive WriteRes
  | ok
  | errEPIPE
  | errOther
  deriving DecidableEq, Repr

/-- The external observations of one iteration of the decode loop's
`while` (lines 153-186): the `stop_flag` value read at the top, whether
`mp4read_frame()` returned 0, whether `frameInfo.error > 0`,
`frameInfo.samples`, and the outcome of the pipe write. -/
structure FrameStep where
  stopFlagSet : Bool
  frameReadOk : Bool
  decodeError : Bool
  samples : Nat
  writeRes : WriteRes
  deriving DecidableEq, Repr

/-- Events emitted by the decode loop body. -/
inductive LoopEv
  /-- `g_printerr` of a FAAD warning (line 166). -/
  | logFaadWarning
  /-- `perror` of a write error (line 182). -/
  | logWriteError
  /-- a successful write of `n` bytes to the pipe. -/
  | writeBytes (n : Nat)
  deriving DecidableEq, Repr

/-- Why the decode loop's `while` ended. -/
inductive LoopExit
  /-- `stop_flag` was observed set at the top of the loop. -/
  | stopRequested
  /-- `mp4read_frame()` failed: end of file or read error (line 155). -/
  | endOfData
  /-- `write` failed with `EPIPE`: reader closed the pipe (line 178). -/
  | readerClosed
  /-- `write` failed with any other errno (line 182). -/
  | writeError
  /-- the supplied observation list was exhausted. -/
  | ranOut
  deriving DecidableEq, Repr

/-- The `while (!stop_flag)` loop of `Decoder::decode_loop` (lines
153-186), driven by a list of per-iteration observations: stop when the
flag is set; break on a failed frame read; on a decode warning log and
`continue`; with positive samples, write `samples * 2` bytes — `EPIPE`
breaks silently, any other write failure is logged with `perror` and
breaks; zero samples just continues. -/
def decode_loop_run : List FrameStep → List LoopEv × LoopExit
  | [] => ([], LoopExit.ranOut)
  | s :: rest =>
    if s.stopFlagSet then ([], LoopExit.stopRequested)
    else if !s.frameReadOk then ([], LoopExit.endOfData)
    else if s.decodeError then
      let r := decode_loop_run rest
      (LoopEv.logFaadWarning :: r.1, r.2)
    else if s.samples > 0 then
      match s.writeRes with
      | WriteRes.ok =>
        let r := decode_loop_run rest
        (LoopEv.writeBytes (s.samples * 2) :: r.1, r.2)
      | WriteRes.errEPIPE => ([], LoopExit.readerClosed)
      | WriteRes.errOther => ([LoopEv.logWriteError], LoopExit.writeError)
    else decode_loop_run rest

/-- One decode-loop iteration in which the write fails with `EPIPE`
(the reader has closed the pipe). -/
def epipeStep : FrameStep :=
  { stopFlagSet := false, frameReadOk := true, decodeError := false,
    samples := 1, writeRes := WriteRes.errEPIPE }

end BARKPlayer

namespace BARKPlayer

/-- Theorem support: events emitted by `stop` never include the
end-of-stream callback. -/
theorem eosCallback_not_mem_cleanup (st : BackendState) :
    Ev.eosCallback ∉ (cleanup_pipeline st).2 := by
  unfold cleanup_pipeline
  dsimp only
  split <;> split <;> simp

theorem eosCallback_not_mem_stop (st : BackendState) :
    Ev.eosCallback ∉ (stop st).2 := by
  unfold stop
  split
  · simp
  · dsimp only
    intro h
    rcases List.mem_append.mp h with h1 | h1
    · rcases List.mem_append.mp h1 with h2 | h2
      · revert h2; split <;> simp
      · revert h2; split <;> simp
    · exact eosCallback_not_mem_cleanup _ h1

/-- Claim C3: for every decode-loop run with `startTimeSeconds > 0`, the
seek decision is: seek to `startTimeSeconds * sampleRate /
samplesPerFrame` (with `samplesPerFrame = totalSampleCount /
totalFrameCount` when both are positive, else `1024`) exactly when that
target frame is below the total frame count; otherwise play from the
start of the stream. -/
theorem decode_seek_matches_spec (t rate samples nsamples : Nat)
    (ht : 0 < t) :
    decode_seek t rate samples nsamples =
      if spec_target_frame t rate samples nsamples < nsamples then
        SeekAction.seekTo (spec_target_frame t rate samples nsamples)
      else SeekAction.fromStart := by
  unfold decode_seek spec_target_frame
  by_cases h1 : 0 < samples <;> by_cases h2 : 0 < nsamples <;>
    simp [h1, h2, ht]

/-- Witness for C3: `start_time = 30` s at 44100 Hz with 10240000 total
samples over 10000 frames seeks to frame 1292. -/
theorem decode_seek_matches_spec_witness :
    0 < 30 ∧ decode_seek 30 44100 10240000 10000 =
      (if spec_target_frame 30 44100 10240000 10000 < 10000 then
        SeekAction.seekTo (spec_target_frame 30 44100 10240000 10000)
      else SeekAction.fromStart) :=
  ⟨by decide, decode_seek_matches_spec 30 44100 10240000 10000 (by decide)⟩

/-- Counterexample for C5: in a playing state with a valid clock and
base time where the clock reads 5 and the base time 10, `get_position`
does not return `lastPosition + (pipelineClockNow - pipelineBaseTime)`
(which would be 95): it returns `lastPosition` (100), because the code
also requires `current_time > base_time`. -/
theorem get_position_live_formula_cex :
    ¬ (get_position
        { initialState with is_playing := true, pipeline := true,
                            last_position := 100 }
        { clockAvailable := true, currentTime := 5, baseTime := 10,
          baseTimeValid := true }
      = 100 + ((5 : Int) - 10)) := by
  decide

/-- Claim C5 (amended): `get_position` returns `lastPosition` when
paused; when playing with a pipeline whose clock is obtainable, whose
base time is valid, and whose current clock time is strictly greater
than the base time, it returns `lastPosition + (pipelineClockNow -
pipelineBaseTime)`; in all other cases it returns `lastPosition`. -/
theorem get_position_characterization (st : BackendState) (env : ClockEnv) :
    get_position st env =
      if st.is_paused then st.last_position
      else if st.is_playing && st.pipeline && env.clockAvailable &&
          env.baseTimeValid && decide (env.baseTime < env.currentTime) then
        st.last_position + ((env.currentTime - env.baseTime : Nat) : Int)
      else st.last_position := by
  unfold get_position
  by_cases hp : st.is_paused <;>
    by_cases h1 : st.is_playing <;> by_cases h2 : st.pipeline <;>
    by_cases h3 : env.clockAvailable <;> by_cases h4 : env.baseTimeValid <;>
    by_cases h5 : env.baseTime < env.currentTime <;>
    simp [hp, h1, h2, h3, h4, h5, Int.add_comm]

/-- Claim C9: while playing with a pipeline whose clock is obtainable
and whose base time is valid, `get_position` adds the live delta exactly
when the current clock time is strictly greater than the base time, and
returns `lastPosition` unchanged when the current clock time is less
than or equal to the base time. -/
theorem get_position_delta_iff_clock_ahead (st : BackendState)
    (env : ClockEnv) (hplay : st.is_playing = true)
    (hpause : st.is_paused = false) (hpipe : st.pipeline = true)
    (hclock : env.clockAvailable = true)
    (hvalid : env.baseTimeValid = true) :
    (env.baseTime < env.currentTime →
      get_position st env =
        ((env.currentTime - env.baseTime : Nat) : Int) + st.last_position) ∧
    (env.currentTime ≤ env.baseTime →
      get_position st env = st.last_position) := by
  constructor
  · intro hlt
    simp [get_position, hplay, hpause, hpipe, hclock, hvalid, hlt]
  · intro hle
    simp [get_position, hplay, hpause, hpipe, hclock, hvalid,
      Nat.not_lt.mpr hle]

/-- Witness for C9: concrete playing state, clock at 70 with base 50,
the position gains the delta 20; with clock at 50 and base 70 it stays
put. -/
theorem get_position_delta_iff_clock_ahead_witness :
    get_position
      { initialState with is_playing := true, pipeline := true,
                          last_position := 100 }
      { clockAvailable := true, currentTime := 70, baseTime := 50,
        baseTimeValid := true }
    = ((70 - 50 : Nat) : Int) + 100 :=
  (get_position_delta_iff_clock_ahead
    { initialState with is_playing := true, pipeline := true,
                        last_position := 100 }
    { clockAvailable := true, currentTime := 70, baseTime := 50,
      baseTimeValid := true }
    rfl rfl rfl rfl rfl).1 (by decide)

/-- Claim C8: on a successful metadata read, the cached duration equals
`totalSampleCount * GST_SECOND / sampleRate` when both the container
sample count and sample rate are positive, and zero otherwise. -/
theorem read_metadata_duration_spec (openOk : Bool)
    (samples samplerate : Nat) (prev : Int) (h : openOk = true) :
    read_metadata_duration openOk samples samplerate prev =
      if 0 < samples ∧ 0 < samplerate then
        (samples : Int) * GST_SECOND / (samplerate : Int)
      else 0 := by
  subst h
  unfold read_metadata_duration
  by_cases h1 : 0 < samples <;> by_cases h2 : 0 < samplerate <;>
    simp [h1, h2]

/-- Witness for C8: 88200 samples at 44100 Hz yield a duration of two
seconds in nanoseconds. -/
theorem read_metadata_duration_spec_witness :
    read_metadata_duration true 88200 44100 7 =
      (if 0 < 88200 ∧ 0 < 44100 then
        ((88200 : Nat) : Int) * GST_SECOND / ((44100 : Nat) : Int)
      else 0) :=
  read_metadata_duration_spec true 88200 44100 7 rfl

/-- Claim C4: from any Playing state (pipeline present, playing, not
paused), calling `pause()` and then `pause()` again (the resume path)
with the same clock readings (no elapsed clock time) leaves
`get_position` unchanged. -/
theorem pause_resume_preserves_position (st : BackendState)
    (env : ClockEnv) (hpipe : st.pipeline = true)
    (hplay : st.is_playing = true) (hpause : st.is_paused = false) :
    get_position (pause (pause st env) env) env = get_position st env := by
  by_cases h3 : env.clockAvailable <;>
    by_cases h4 : env.baseTimeValid <;>
    by_cases h5 : env.baseTime < env.currentTime <;>
    simp [pause, get_position, hpipe, hplay, hpause, h3, h4, h5]

/-- Witness for C4: concrete playing state at position 100 with clock
70 over base 50; pausing then resuming returns position 120 = 100 + 20
either way. -/
theorem pause_resume_preserves_position_witness :
    get_position
      (pause
        (pause
          { initialState with is_playing := true, pipeline := true,
                              last_position := 100 }
          { clockAvailable := true, currentTime := 70, baseTime := 50,
            baseTimeValid := true })
        { clockAvailable := true, currentTime := 70, baseTime := 50,
          baseTimeValid := true })
      { clockAvailable := true, currentTime := 70, baseTime := 50,
        baseTimeValid := true }
    = get_position
        { initialState with is_playing := true, pipeline := true,
                            last_position := 100 }
        { clockAvailable := true, currentTime := 70, baseTime := 50,
          baseTimeValid := true } :=
  pause_resume_preserves_position
    { initialState with is_playing := true, pipeline := true,
                        last_position := 100 }
    { clockAvailable := true, currentTime := 70, baseTime := 50,
      baseTimeValid := true }
    rfl rfl rfl

/-- Claim C2: in every `stop` call that passes the `stopping` guard and
has a pipeline, the event trace splits into a prefix containing the
pipeline deactivation and no thread join, followed by a suffix that
contains the decoder-thread join whenever the decoder was running: the
pipeline is deactivated strictly before the decoder thread is joined. -/
theorem stop_deactivates_pipeline_before_join (st : BackendState)
    (hs : st.stopping = false) (hp : st.pipeline = true) :
    ∃ pre post, (stop st).2 = pre ++ post ∧
      Ev.setPipelineNull ∈ pre ∧ Ev.decoderJoin ∉ pre ∧
      (st.decoder_running = true → Ev.decoderJoin ∈ post) := by
  refine ⟨[Ev.setPipelineNull],
    (if st.decoder_running then [Ev.decoderJoin] else []) ++
      (cleanup_pipeline { st with decoder_running := false }).2, ?_, ?_, ?_, ?_⟩
  · simp [stop, hs, hp]
  · simp
  · simp
  · intro hd
    simp [hd]

/-- Witness for C2: a playing session with a running decoder; `stop`
emits the deactivation first and the join afterwards. -/
theorem stop_deactivates_pipeline_before_join_witness :
    ∃ pre post, (stop livePlayingState).2 = pre ++ post ∧
      Ev.setPipelineNull ∈ pre ∧ Ev.decoderJoin ∉ pre ∧
      (livePlayingState.decoder_running = true → Ev.decoderJoin ∈ post) :=
  stop_deactivates_pipeline_before_join livePlayingState rfl rfl

/-- Claim C7: on an end-of-stream bus event handled outside an ongoing
stop, with a callback registered, the controller ends in the Stopped
state (not playing, not paused) and the trace is the stop events
followed by exactly one invocation of the end-of-stream callback. -/
theorem bus_eos_stops_then_fires_callback_once (st : BackendState)
    (hs : st.stopping = false) :
    ((bus_eos st true).1.is_playing = false ∧
      (bus_eos st true).1.is_paused = false) ∧
    ∃ pre, (bus_eos st true).2 = pre ++ [Ev.eosCallback] ∧
      Ev.eosCallback ∉ pre := by
  refine ⟨⟨?_, ?_⟩, (stop st).2, rfl, eosCallback_not_mem_stop st⟩
  · simp [bus_eos, stop, hs, cleanup_pipeline]
  · simp [bus_eos, stop, hs, cleanup_pipeline]

/-- Witness for C7: end-of-stream during a live playing session. -/
theorem bus_eos_stops_then_fires_callback_once_witness :
    ((bus_eos livePlayingState true).1.is_playing = false ∧
      (bus_eos livePlayingState true).1.is_paused = false) ∧
    ∃ pre, (bus_eos livePlayingState true).2 = pre ++ [Ev.eosCallback] ∧
      Ev.eosCallback ∉ pre :=
  bus_eos_stops_then_fires_callback_once livePlayingState rfl

/-- Counterexample for C1: a `play_file` call from the idle state in
which the pipeline is built but `Decoder::start` fails does not leave
the Stopped state: `is_playing` remains `true` (lines 324 and 351-354
never clear it on that path). -/
theorem play_file_decoder_fail_not_stopped_cex :
    ¬ (((play_file initialState "a.m4a" 0
          { pipelineCreated := true, newBusWatchId := 5,
            decoderStartOk := false }).1).is_playing = false ∧
       ((play_file initialState "a.m4a" 0
          { pipelineCreated := true, newBusWatchId := 5,
            decoderStartOk := false }).1).is_paused = false) := by
  decide

/-- Claim C1 (amended): in a `play_file` call that passes the `stopping`
guard, a pipeline-construction failure leaves the state Stopped
(`is_playing` and `is_paused` false, no pipeline); a `Decoder::start`
failure tears down the partially-built pipeline (pipeline released, bus
watch removed, decoder not running) but leaves `is_playing` true
(`is_paused` false), so the state is not Stopped. -/
theorem play_file_failure_teardown (st : BackendState) (fp : String)
    (t : Int) (env : PlayEnv) (hs : st.stopping = false) :
    (env.pipelineCreated = false →
      (play_file st fp t env).1.is_playing = false ∧
      (play_file st fp t env).1.is_paused = false ∧
      (play_file st fp t env).1.pipeline = false) ∧
    (env.pipelineCreated = true → env.decoderStartOk = false →
      (play_file st fp t env).1.pipeline = false ∧
      (play_file st fp t env).1.bus_watch_id = 0 ∧
      (play_file st fp t env).1.decoder_running = false ∧
      (play_file st fp t env).1.is_playing = true ∧
      (play_file st fp t env).1.is_paused = false) := by
  constructor
  · intro h1
    simp [play_file, hs, h1, cleanup_pipeline]
  · intro h1 h2
    simp [play_file, hs, h1, h2, cleanup_pipeline]

/-- Witness for C1 (amended): the idle state with a failing pipeline
build leaves Stopped. -/
theorem play_file_failure_teardown_witness :
    (play_file initialState "a.m4a" 0
      { pipelineCreated := false, newBusWatchId := 0,
        decoderStartOk := true }).1.is_playing = false ∧
    (play_file initialState "a.m4a" 0
      { pipelineCreated := false, newBusWatchId := 0,
        decoderStartOk := true }).1.is_paused = false ∧
    (play_file initialState "a.m4a" 0
      { pipelineCreated := false, newBusWatchId := 0,
        decoderStartOk := true }).1.pipeline = false :=
  (play_file_failure_teardown initialState "a.m4a" 0
    { pipelineCreated := false, newBusWatchId := 0,
      decoderStartOk := true } rfl).1 rfl

/-- Claim C10: a `play_file` call that passes the `stopping` guard and
then fails (pipeline construction failure or decoder start failure)
leaves the exposed current file path set to the new path and
`last_position` set to `start_time * GST_SECOND`: the mutations made
before the failure are not restored. -/
theorem play_file_mutations_survive_failure (st : BackendState)
    (fp : String) (t : Int) (env : PlayEnv) (hs : st.stopping = false)
    (hfail : env.pipelineCreated = false ∨ env.decoderStartOk = false) :
    (play_file st fp t env).1.current_filepath_str = fp ∧
    (play_file st fp t env).1.last_position = t * GST_SECOND := by
  rcases hfail with h | h
  · simp [play_file, hs, h, cleanup_pipeline]
  · by_cases hp : env.pipelineCreated <;>
      simp [play_file, hs, h, hp, cleanup_pipeline]

/-- Witness for C10: a failing call from the idle state with start time
5 s leaves the path `"b.m4a"` and `last_position = 5 * GST_SECOND`. -/
theorem play_file_mutations_survive_failure_witness :
    (play_file initialState "b.m4a" 5
      { pipelineCreated := false, newBusWatchId := 0,
        decoderStartOk := true }).1.current_filepath_str = "b.m4a" ∧
    (play_file initialState "b.m4a" 5
      { pipelineCreated := false, newBusWatchId := 0,
        decoderStartOk := true }).1.last_position = 5 * GST_SECOND :=
  play_file_mutations_survive_failure initialState "b.m4a" 5
    { pipelineCreated := false, newBusWatchId := 0,
      decoderStartOk := true } rfl (Or.inl rfl)

/-- Claim C6: in every decode-loop run, a write failure with `EPIPE`
(reader disconnected) ends the loop silently — no write error is ever
logged in that run — while any other write failure ends the loop with
the write error logged as its final event. -/
theorem decode_loop_write_failure_handling (steps : List FrameStep) :
    ((decode_loop_run steps).2 = LoopExit.readerClosed →
      LoopEv.logWriteError ∉ (decode_loop_run steps).1) ∧
    ((decode_loop_run steps).2 = LoopExit.writeError →
      ∃ pre, (decode_loop_run steps).1 = pre ++ [LoopEv.logWriteError] ∧
        LoopEv.logWriteError ∉ pre) := by
  induction steps with
  | nil => simp [decode_loop_run]
  | cons s rest ih =>
    unfold decode_loop_run
    by_cases h1 : s.stopFlagSet
    · simp [h1]
    · by_cases h2 : s.frameReadOk
      · by_cases h3 : s.decodeError
        · simp only [h1, h2, h3, Bool.not_true, Bool.false_eq_true,
            if_false, if_true, Bool.not_eq_true]
          refine ⟨fun he => ?_, fun he => ?_⟩
          · have := ih.1 he
            simp [this]
          · obtain ⟨pre, hpre, hnm⟩ := ih.2 he
            exact ⟨LoopEv.logFaadWarning :: pre, by simp [hpre],
              by simp [hnm]⟩
        · by_cases h4 : 0 < s.samples
          · cases hw : s.writeRes
            · simp only [h1, h2, h3, h4, hw, Bool.not_true,
                Bool.not_false, if_true, if_false]
              refine ⟨fun he => ?_, fun he => ?_⟩
              · have := ih.1 (by simpa using he)
                simp_all
              · obtain ⟨pre, hpre, hnm⟩ := ih.2 (by simpa using he)
                refine ⟨LoopEv.writeBytes (s.samples * 2) :: pre, ?_, ?_⟩
                · simp_all
                · simp [hnm]
            · simp [h1, h2, h3, h4, hw]
            · simp [h1, h2, h3, h4, hw]
          · simp only [h1, h2, h3, h4]
            simpa [h1, h2, h3, h4] using ih
      · simp [h1, h2]

/-- Witness for C6: a single iteration whose write fails with `EPIPE`
ends the loop with `readerClosed` and no logged write error. -/
theorem decode_loop_write_failure_handling_witness :
    (decode_loop_run [epipeStep]).2 = LoopExit.readerClosed ∧
    LoopEv.logWriteError ∉ (decode_loop_run [epipeStep]).1 :=
  ⟨by decide, (decode_loop_write_failure_handling [epipeStep]).1 (by decide)⟩

end BARKPlayer
